import Mathlib

/-!
Shallow embedding of the installer repository's asset code, for checking its
natural-language specification.

Embedded source files:
* `pkg/types` (the unnamed part): `InstallConfig`, `MachinePool` fields used by
  `MasterCount`, `Admin`, `Platform` and `Platform.Name`.
* `pkg/asset/ignition/bootstrap/bootstrap.go`: the `Bootstrap` writable asset —
  `Dependencies`, `Generate` with its helper `add*Files` steps and
  `getTemplateData`, `Files`, and `Load`.

Modelling conventions:
* Go byte slices and strings are both Lean `String`s.
* Go nil-able pointers are `Option`s.
* The process environment is an explicit `String → Option String` map passed to
  the functions that call `os.LookupEnv` in the source.
* JSON (de)serialization of the ignition config is symbolic: `ByteData` is
  either `raw` bytes (content that does not decode to a config) or `ofConfig c`,
  the marshalling of config `c`.  This reflects that `encoding/json.Marshal` on
  `igntypes.Config` is injective and `json.Unmarshal` inverts it structurally,
  performing no semantic validation of field values (in particular no version
  check).
* Go map iteration (`for k, v := range m`) has unspecified order; the content
  maps are carried as association lists whose list order is the iteration order
  the Go runtime chose for that run.
-/

/-- `MachinePool` (pkg/types): the fields `InstallConfig.MasterCount` reads —
the pool `Name` and the optional `Replicas` pointer (Go `*int64`). -/
structure MachinePool where
  name : String
  replicas : Option Int
  deriving DecidableEq, Repr

/-- `Admin` (pkg/types): configuration for the admin user. -/
structure Admin where
  email : String
  password : String
  sshKey : String
  deriving DecidableEq, Repr

/-- Modelled from the spec: `pkg/types/aws.Platform` is platform-specific
configuration the core treats opaquely; `Platform.Name` only tests its
presence. -/
structure AWSPlatform where
  region : String
  deriving DecidableEq, Repr

/-- Modelled from the spec: `pkg/types/libvirt.Platform`, treated opaquely. -/
structure LibvirtPlatform where
  uri : String
  deriving DecidableEq, Repr

/-- Modelled from the spec: `pkg/types/openstack.Platform`, treated opaquely. -/
structure OpenStackPlatform where
  cloud : String
  deriving DecidableEq, Repr

/-- `PlatformNameAWS` (pkg/types). -/
def PlatformNameAWS : String := "aws"

/-- `PlatformNameOpenstack` (pkg/types). -/
def PlatformNameOpenstack : String := "openstack"

/-- `PlatformNameLibvirt` (pkg/types). -/
def PlatformNameLibvirt : String := "libvirt"

/-- `Platform` (pkg/types): at most one of the platform fields should be set;
each is a nil-able pointer in Go. -/
structure Platform where
  aws : Option AWSPlatform
  libvirt : Option LibvirtPlatform
  openStack : Option OpenStackPlatform
  deriving DecidableEq, Repr

/-- `Platform.Name` (pkg/types): the Go method has a pointer receiver that may
be nil, modelled as `Option Platform`.  Returns "aws" / "libvirt" /
"openstack" for the first non-nil field in that order, and "" for a nil
receiver or no configured platform. -/
def Platform.name (p : Option Platform) : String :=
  match p with
  | none => ""
  | some pl =>
    match pl.aws with
    | some _ => PlatformNameAWS
    | none =>
      match pl.libvirt with
      | some _ => PlatformNameLibvirt
      | none =>
        match pl.openStack with
        | some _ => PlatformNameOpenstack
        | none => ""

/-- `Networking` (pkg/types), with the external `NetworkType` and `IPNet`
types carried as strings. -/
structure Networking where
  networkType : String
  serviceCIDR : String
  podCIDR : Option String
  deriving DecidableEq, Repr

/-- `InstallConfig` (pkg/types).  `objectMetaName` is the embedded
`metav1.ObjectMeta`'s `Name` field, the only part of the `TypeMeta` /
`ObjectMeta` embeds the claims touch. -/
structure InstallConfig where
  objectMetaName : String
  clusterID : String
  admin : Admin
  baseDomain : String
  networking : Networking
  machines : List MachinePool
  platform : Platform
  pullSecret : String
  deriving DecidableEq, Repr

/-- The loop body of `InstallConfig.MasterCount`: scan the machine pools in
order, returning the first pool whose name is "master" and whose `Replicas`
pointer is non-nil; default 1 past the end. -/
def masterCountList : List MachinePool → Int
  | [] => 1
  | m :: rest =>
    if m.name == "master" && m.replicas.isSome then m.replicas.getD 0
    else masterCountList rest

/-- `InstallConfig.MasterCount` (pkg/types): the number of replicas in the
master machine pool, defaulting to one if no machine pool was found. -/
def InstallConfig.masterCount (c : InstallConfig) : Int :=
  masterCountList c.machines

/-! ## The bootstrap asset (pkg/asset/ignition/bootstrap/bootstrap.go) -/

/-- The identities of the assets `Bootstrap` can name: its declared
dependencies.  These play the role of the asset descriptors (Go runtime types)
that `asset.Parents` is keyed by. -/
inductive Descriptor where
  | installConfig
  | rootCA
  | etcdCA
  | ingressCertKey
  | kubeCA
  | aggregatorCA
  | serviceServingCA
  | clusterAPIServerCertKey
  | etcdClientCertKey
  | apiServerCertKey
  | openshiftAPIServerCertKey
  | apiServerProxyCertKey
  | adminCertKey
  | kubeletCertKey
  | mcsCertKey
  | serviceAccountKeyPair
  | kubeconfigAdmin
  | kubeconfigKubelet
  | manifests
  | tectonic
  deriving DecidableEq, Repr

/-- `asset.File` of a dependency asset, as consumed by `Bootstrap.Generate`
(`Files()[i].Data` reads): filename plus raw byte content. -/
structure DepFile where
  filename : String
  data : String
  deriving DecidableEq, Repr

/-- The resolved output of one dependency asset, as seen through the accessors
`Bootstrap.Generate` uses: `files` models the asset's `Files()`;
`installConfig` models `installconfig.InstallConfig.Config` (meaningful only
for the install-config descriptor); `cert` models `CertKey.Cert()`
(meaningful only for TLS cert/key descriptors). -/
structure AssetOutput where
  files : List DepFile
  installConfig : InstallConfig
  cert : String
  deriving Repr

/-- `asset.Parents`: the resolved-dependency view handed to `Generate`,
a mapping from descriptor to resolved asset output.  The resolver guarantees
every declared dependency is present, so the view is modelled total. -/
abbrev Parents : Type := Descriptor → AssetOutput

/-- `igntypes.File` (coreos/ignition v2_2), restricted to what the repository's
`ignition.FileFromString` / `FileFromBytes` populate: path, mode bits, and
content bytes. -/
structure IgnFile where
  path : String
  mode : Nat
  contents : String
  deriving DecidableEq, Repr

/-- `igntypes.Unit` (coreos/ignition v2_2): a systemd unit entry. -/
structure IgnUnit where
  name : String
  contents : String
  enabled : Option Bool
  deriving DecidableEq, Repr

/-- `igntypes.PasswdUser` (coreos/ignition v2_2). -/
structure IgnPasswdUser where
  name : String
  sshAuthorizedKeys : List String
  deriving DecidableEq, Repr

/-- `igntypes.Config` (coreos/ignition v2_2), restricted to the fields
`Bootstrap` populates: `Ignition.Version`, `Storage.Files`, `Systemd.Units`,
`Passwd.Users`. -/
structure IgnConfig where
  version : String
  storageFiles : List IgnFile
  systemdUnits : List IgnUnit
  passwdUsers : List IgnPasswdUser
  deriving DecidableEq, Repr

/-- `igntypes.MaxVersion.String()` for the v2_2 ignition config types. -/
def ignMaxVersion : String := "2.2.0"

/-- Byte content of an `asset.File`, symbolically: either raw bytes that do not
decode to an ignition config, or the JSON marshalling of a config `c`
(`encoding/json.Marshal` is injective on `igntypes.Config`). -/
inductive ByteData where
  | raw (s : String)
  | ofConfig (c : IgnConfig)
  deriving DecidableEq, Repr

/-- `encoding/json.Marshal` applied to an `igntypes.Config`, symbolically. -/
def jsonMarshal (c : IgnConfig) : ByteData := .ofConfig c

/-- `encoding/json.Unmarshal` of bytes into an `igntypes.Config`, symbolically:
the marshalling of `c` decodes back to `c`; other bytes fail.  Plain
`json.Unmarshal` is purely structural — it validates no field values and in
particular performs no version-compatibility check. -/
def jsonUnmarshalConfig : ByteData → Except String IgnConfig
  | .raw _ => .error "invalid character"
  | .ofConfig c => .ok c

/-- `asset.File`: the bootstrap asset's own file type (its `Data` can hold a
marshalled ignition config). -/
structure AssetFile where
  filename : String
  data : ByteData
  deriving DecidableEq, Repr

/-- `Bootstrap` (bootstrap.go): `Config *igntypes.Config` and
`File *asset.File`, both nil until `Generate` or `Load` succeeds. -/
structure Bootstrap where
  config : Option IgnConfig
  file : Option AssetFile
  deriving DecidableEq, Repr

/-- `rootDir` constant (bootstrap.go). -/
def rootDir : String := "/opt/tectonic"

/-- `defaultReleaseImage` constant (bootstrap.go). -/
def defaultReleaseImage : String :=
  "registry.svc.ci.openshift.org/openshift/origin-release:v4.0"

/-- `bootstrapIgnFilename` constant (bootstrap.go). -/
def bootstrapIgnFilename : String := "bootstrap.ign"

/-- The environment variable `getTemplateData` looks up. -/
def releaseImageOverrideVar : String := "OPENSHIFT_INSTALL_RELEASE_IMAGE_OVERRIDE"

/-- `filepath.Join` on the clean relative components used in bootstrap.go. -/
def filepathJoin (a b : String) : String := a ++ "/" ++ b

/-- Modelled from the spec (pkg/asset/ignition, not under src/): the file
model is `{path, mode, content}`; `FileFromString` builds one ignition file
from a path, mode and string contents. -/
def fileFromString (path : String) (mode : Nat) (contents : String) : IgnFile :=
  ⟨path, mode, contents⟩

/-- Modelled from the spec (pkg/asset/ignition, not under src/):
`FileFromBytes`, identical to `fileFromString` with byte contents. -/
def fileFromBytes (path : String) (mode : Nat) (contents : String) : IgnFile :=
  ⟨path, mode, contents⟩

/-- Modelled from the spec (pkg/asset/ignition, not under src/):
`FilesFromAsset` lifts each of an asset's `Files()` to an ignition file under
`pathPrefix`, with the given mode. -/
def filesFromAsset (pathPrefix : String) (mode : Nat) (files : List DepFile) :
    List IgnFile :=
  files.map fun f => ⟨filepathJoin pathPrefix f.filename, mode, f.data⟩

/-- `bootstrapTemplateData` (bootstrap.go): the substitution data for
bootstrap template files. -/
structure BootstrapTemplateData where
  bootkubeImage : String
  clusterDNSIP : String
  etcdCertSignerImage : String
  etcdCluster : String
  etcdctlImage : String
  releaseImage : String
  deriving DecidableEq, Repr

/-- Modelled from the spec: the `content` package (not under src/) is an
external content producer the core treats opaquely.  Template values are
functions from template data to the substituted text (`text/template`
execution); the three `*BootkubeManifests` Go maps are carried as association
lists whose order is the map iteration order the Go runtime chose for the run
(Go leaves that order unspecified). -/
structure Content where
  reportShFileContents : String
  bootkubeShFileTemplate : BootstrapTemplateData → String
  bootkubeConfigOverrides : List (String × (BootstrapTemplateData → String))
  podCheckpointerBootkubeManifests : List (String × String)
  kubeProxyBootkubeManifests : List (String × String)
  kubeDNSBootkubeManifests : List (String × String)
  bootkubeKubeDNSService : BootstrapTemplateData → String
  tectonicShFileContents : String
  bootkubeSystemdContents : String
  tectonicSystemdContents : String
  reportSystemdContents : String
  kubeletSystemdContents : String

/-- `applyTemplateData` (bootstrap.go): execute a template against the
template data. -/
def applyTemplateData (t : BootstrapTemplateData → String)
    (d : BootstrapTemplateData) : String := t d

/-- `Bootstrap.Dependencies` (bootstrap.go, lines 53–76), in declaration
order. -/
def bootstrapDependencies : List Descriptor :=
  [.installConfig, .rootCA, .etcdCA, .ingressCertKey, .kubeCA, .aggregatorCA,
   .serviceServingCA, .clusterAPIServerCertKey, .etcdClientCertKey,
   .apiServerCertKey, .openshiftAPIServerCertKey, .apiServerProxyCertKey,
   .adminCertKey, .kubeletCertKey, .mcsCertKey, .serviceAccountKeyPair,
   .kubeconfigAdmin, .kubeconfigKubelet, .manifests, .tectonic]

/-- `Bootstrap.getTemplateData` (bootstrap.go, lines 139–163).
`clusterDNSIP` is `installconfig.ClusterDNSIP` (repository code not under
src/), threaded as an opaque pure function; `env` is the process environment
(`os.LookupEnv`). -/
def getTemplateData (clusterDNSIP : InstallConfig → Except String String)
    (env : String → Option String) (installConfig : InstallConfig) :
    Except String BootstrapTemplateData :=
  match clusterDNSIP installConfig with
  | .error e => .error ("failed to get ClusterDNSIP from InstallConfig: " ++ e)
  | .ok dnsip =>
    let etcdEndpoints :=
      (List.range installConfig.masterCount.toNat).map fun i =>
        "https://" ++ installConfig.objectMetaName ++ "-etcd-" ++ toString i
          ++ "." ++ installConfig.baseDomain ++ ":2379"
    let releaseImage :=
      match env releaseImageOverrideVar with
      | some ri => if ri ≠ "" then ri else defaultReleaseImage
      | none => defaultReleaseImage
    .ok
      { clusterDNSIP := dnsip
        etcdCertSignerImage :=
          "quay.io/coreos/kube-etcd-signer-server:678cc8e6841e2121ebfdb6e2db568fce290b67d6"
        etcdctlImage := "quay.io/coreos/etcd:v3.2.14"
        bootkubeImage := "quay.io/coreos/bootkube:v0.10.0"
        releaseImage := releaseImage
        etcdCluster := String.intercalate "," etcdEndpoints }

/-- `Bootstrap.addBootstrapFiles` (bootstrap.go, lines 165–177): appends the
kubelet kubeconfig (first file of the `kubeconfig.Kubelet` dependency) and the
report-progress script to `a.Config.Storage.Files`.  Go indexes
`Files()[0]` unconditionally; the resolver guarantees the dependency produced
its file, modelled with `headD`. -/
def addBootstrapFiles (content : Content) (parents : Parents)
    (c : IgnConfig) : IgnConfig :=
  let kubeletData := ((parents .kubeconfigKubelet).files.headD ⟨"", ""⟩).data
  { c with storageFiles := c.storageFiles
      ++ [fileFromBytes "/etc/kubernetes/kubeconfig" 0o600 kubeletData]
      ++ [fileFromString "/usr/local/bin/report-progress.sh" 0o555
            content.reportShFileContents] }

/-- `Bootstrap.addBootkubeFiles` (bootstrap.go, lines 179–203): appends the
bootkube script, the bootkube config overrides, and the admin-kubeconfig and
manifests dependency files. -/
def addBootkubeFiles (content : Content) (parents : Parents)
    (templateData : BootstrapTemplateData) (c : IgnConfig) : IgnConfig :=
  let bootkubeConfigOverridesDir := filepathJoin rootDir "bootkube-config-overrides"
  { c with storageFiles := c.storageFiles
      ++ [fileFromString "/usr/local/bin/bootkube.sh" 0o555
            (applyTemplateData content.bootkubeShFileTemplate templateData)]
      ++ content.bootkubeConfigOverrides.map (fun o =>
            fileFromString (filepathJoin bootkubeConfigOverridesDir o.1) 0o600
              (applyTemplateData o.2 templateData))
      ++ filesFromAsset rootDir 0o600 (parents .kubeconfigAdmin).files
      ++ filesFromAsset rootDir 0o644 (parents .manifests).files }

/-- `Bootstrap.addTemporaryBootkubeFiles` (bootstrap.go, lines 205–233):
appends the pod-checkpointer, kube-proxy and kube-dns bootstrap manifests
(each a Go map, iterated in the runtime-chosen order carried by `Content`),
then the templated kube-dns service manifest. -/
def addTemporaryBootkubeFiles (content : Content)
    (templateData : BootstrapTemplateData) (c : IgnConfig) : IgnConfig :=
  let podCheckpointerBootstrapDir :=
    filepathJoin rootDir "pod-checkpointer-operator-bootstrap"
  let kubeProxyBootstrapDir := filepathJoin rootDir "kube-proxy-operator-bootstrap"
  let kubeDNSBootstrapDir := filepathJoin rootDir "kube-dns-operator-bootstrap"
  { c with storageFiles := c.storageFiles
      ++ content.podCheckpointerBootkubeManifests.map (fun nd =>
            fileFromString (filepathJoin podCheckpointerBootstrapDir nd.1) 0o644 nd.2)
      ++ content.kubeProxyBootkubeManifests.map (fun nd =>
            fileFromString (filepathJoin kubeProxyBootstrapDir nd.1) 0o644 nd.2)
      ++ content.kubeDNSBootkubeManifests.map (fun nd =>
            fileFromString (filepathJoin kubeDNSBootstrapDir nd.1) 0o644 nd.2)
      ++ [fileFromString (filepathJoin kubeDNSBootstrapDir "kube-dns-svc.yaml") 0o644
            (applyTemplateData content.bootkubeKubeDNSService templateData)] }

/-- `Bootstrap.addTectonicFiles` (bootstrap.go, lines 235–247): appends the
tectonic script and the `manifests.Tectonic` dependency files. -/
def addTectonicFiles (content : Content) (parents : Parents)
    (c : IgnConfig) : IgnConfig :=
  { c with storageFiles := c.storageFiles
      ++ [fileFromString "/usr/local/bin/tectonic.sh" 0o555
            content.tectonicShFileContents]
      ++ filesFromAsset rootDir 0o644 (parents .tectonic).files }

/-- The TLS writable assets `addTLSCertFiles` requests, in its loop order
(bootstrap.go, lines 250–265). -/
def tlsCertAssets : List Descriptor :=
  [.rootCA, .kubeCA, .aggregatorCA, .serviceServingCA, .etcdCA,
   .clusterAPIServerCertKey, .etcdClientCertKey, .apiServerCertKey,
   .openshiftAPIServerCertKey, .apiServerProxyCertKey, .adminCertKey,
   .kubeletCertKey, .mcsCertKey, .serviceAccountKeyPair]

/-- `Bootstrap.addTLSCertFiles` (bootstrap.go, lines 249–276): appends each
TLS asset's files under `rootDir`, then the etcd client CA certificate. -/
def addTLSCertFiles (parents : Parents) (c : IgnConfig) : IgnConfig :=
  let c1 := tlsCertAssets.foldl (fun acc d =>
    { acc with storageFiles :=
        acc.storageFiles ++ filesFromAsset rootDir 0o600 (parents d).files }) c
  { c1 with storageFiles := c1.storageFiles
      ++ [fileFromBytes "/etc/ssl/etcd/ca.crt" 0o600
            (parents .etcdClientCertKey).cert] }

/-- `Bootstrap.Generate` (bootstrap.go, lines 79–123).  On success the asset's
`Config` is the built ignition config and its `File` is `bootstrap.ign` with
the config's JSON marshalling as data (`json.Marshal` on these values cannot
fail).  The only error path is `getTemplateData`. -/
def bootstrapGenerate (content : Content)
    (clusterDNSIP : InstallConfig → Except String String)
    (env : String → Option String) (parents : Parents) (_a : Bootstrap) :
    Except String Bootstrap :=
  let installConfig := (parents .installConfig).installConfig
  match getTemplateData clusterDNSIP env installConfig with
  | .error e => .error ("failed to get bootstrap templates: " ++ e)
  | .ok templateData =>
    let c0 : IgnConfig :=
      { version := ignMaxVersion, storageFiles := [], systemdUnits := [],
        passwdUsers := [] }
    let c1 := addBootstrapFiles content parents c0
    let c2 := addBootkubeFiles content parents templateData c1
    let c3 := addTemporaryBootkubeFiles content templateData c2
    let c4 := addTectonicFiles content parents c3
    let c5 := addTLSCertFiles parents c4
    let c6 := { c5 with systemdUnits := c5.systemdUnits
        ++ ([⟨"bootkube.service", content.bootkubeSystemdContents, none⟩,
             ⟨"tectonic.service", content.tectonicSystemdContents, none⟩,
             ⟨"progress.service", content.reportSystemdContents, some true⟩,
             ⟨"kubelet.service", content.kubeletSystemdContents, some true⟩] :
              List IgnUnit) }
    let c7 := { c6 with passwdUsers := c6.passwdUsers
        ++ ([⟨"core", [installConfig.admin.sshKey]⟩] : List IgnPasswdUser) }
    .ok { config := some c7,
          file := some ⟨bootstrapIgnFilename, jsonMarshal c7⟩ }

/-- The sequence of descriptors `Bootstrap.Generate` requests from the
`Parents` view, in request order: `installConfig` in `Generate` itself, the
kubelet kubeconfig in `addBootstrapFiles`, the admin kubeconfig and manifests
in `addBootkubeFiles`, tectonic in `addTectonicFiles`, and the TLS assets
(with a final repeated etcd-client request) in `addTLSCertFiles`. -/
def bootstrapGenerateGets : List Descriptor :=
  [.installConfig, .kubeconfigKubelet, .kubeconfigAdmin, .manifests, .tectonic]
    ++ tlsCertAssets ++ [.etcdClientCertKey]

/-- `Bootstrap.Name` (bootstrap.go). -/
def bootstrapName : String := "Bootstrap Ignition Config"

/-- `Bootstrap.Files` (bootstrap.go, lines 131–136): the singleton `a.File`
when set, the empty list otherwise. -/
def Bootstrap.files (a : Bootstrap) : List AssetFile :=
  match a.file with
  | some f => [f]
  | none => []

/-- Errors from `asset.FileFetcher.FetchByName`: Go distinguishes errors
satisfying `os.IsNotExist` from all others. -/
inductive FetchError where
  | notExist
  | other (msg : String)
  deriving DecidableEq, Repr

/-- The result triple of `Bootstrap.Load`: the asset state after the call,
the `found` flag, and the returned error (if any). -/
structure LoadResult where
  state : Bootstrap
  found : Bool
  err : Option String
  deriving DecidableEq, Repr

/-- `Bootstrap.Load` (bootstrap.go, lines 287–303): fetch `bootstrap.ign`;
a not-exist fetch error yields `(false, nil)`, any other fetch error is
returned; then JSON-unmarshal the data, returning any unmarshal error wrapped;
on success assign `a.File, a.Config` and report found. -/
def Bootstrap.load (a : Bootstrap)
    (fetcher : String → Except FetchError AssetFile) : LoadResult :=
  match fetcher bootstrapIgnFilename with
  | .error .notExist => ⟨a, false, none⟩
  | .error (.other msg) => ⟨a, false, some msg⟩
  | .ok file =>
    match jsonUnmarshalConfig file.data with
    | .error e => ⟨a, false, some ("failed to unmarshal: " ++ e)⟩
    | .ok config => ⟨{ a with file := some file, config := some config }, true, none⟩

/-! ## Concrete fixtures used by counterexamples and witnesses -/

/-- A small install configuration with no machine pools. -/
def sampleInstallConfig : InstallConfig :=
  { objectMetaName := "test-cluster"
    clusterID := "cid"
    admin := ⟨"admin@example.com", "pw", "ssh-rsa AAAA"⟩
    baseDomain := "example.com"
    networking := ⟨"OpenshiftSDN", "10.3.0.0/16", none⟩
    machines := []
    platform := ⟨none, none, none⟩
    pullSecret := "ps" }

/-- `sampleInstallConfig` with a single pool named "primary" carrying an
explicit replica count of 3. -/
def cfgPrimary3 : InstallConfig :=
  { sampleInstallConfig with machines := [⟨"primary", some 3⟩] }

/-- `sampleInstallConfig` with a single pool named "master" carrying an
explicit replica count of 3. -/
def cfgMaster3 : InstallConfig :=
  { sampleInstallConfig with machines := [⟨"master", some 3⟩] }

/-- A concrete `installconfig.ClusterDNSIP` (external to src/): a pure
function of the install config. -/
def sampleDNSIP : InstallConfig → Except String String :=
  fun _ => .ok "10.3.0.10"

/-- A process environment with no variables set. -/
def envEmpty : String → Option String := fun _ => none

/-- A process environment with only the release-image override set. -/
def envOverride : String → Option String :=
  fun n => if n = releaseImageOverrideVar then
    some "example.com/custom-release:latest" else none

/-- A process environment that differs from `envOverride` everywhere except
at the release-image override variable. -/
def envOverrideNoisy : String → Option String :=
  fun n => if n = releaseImageOverrideVar then
    some "example.com/custom-release:latest" else some "unrelated"

/-- Concrete external content: the bootkube script template substitutes the
release image (as the real template does); the other values are small
placeholder texts, and the manifest maps are empty. -/
def sampleContent : Content :=
  { reportShFileContents := "report"
    bootkubeShFileTemplate := fun d => "bootkube " ++ d.releaseImage
    bootkubeConfigOverrides := []
    podCheckpointerBootkubeManifests := []
    kubeProxyBootkubeManifests := []
    kubeDNSBootkubeManifests := []
    bootkubeKubeDNSService := fun d => "dns-svc " ++ d.clusterDNSIP
    tectonicShFileContents := "tectonic"
    bootkubeSystemdContents := "bootkube-unit"
    tectonicSystemdContents := "tectonic-unit"
    reportSystemdContents := "report-unit"
    kubeletSystemdContents := "kubelet-unit" }

/-- `sampleContent` with a two-entry pod-checkpointer manifest map in one
iteration order. -/
def contentMapsA : Content :=
  { sampleContent with
      podCheckpointerBootkubeManifests := [("a.yaml", "A"), ("b.yaml", "B")] }

/-- `sampleContent` with the same pod-checkpointer manifest map in the other
iteration order. -/
def contentMapsB : Content :=
  { sampleContent with
      podCheckpointerBootkubeManifests := [("b.yaml", "B"), ("a.yaml", "A")] }

/-- A resolved view where every dependency exposes one file, the sample
install config, and a certificate. -/
def sampleParents : Parents :=
  fun _ => ⟨[⟨"dep-file", "dep-data"⟩], sampleInstallConfig, "CERT"⟩

/-- The result of a concrete successful `Generate` run. -/
def sampleGenerated : Bootstrap :=
  match bootstrapGenerate sampleContent sampleDNSIP envEmpty sampleParents
      ⟨none, none⟩ with
  | .ok a => a
  | .error _ => ⟨none, none⟩

/-- A fetcher whose store holds no artifact. -/
def fetcherNotExist : String → Except FetchError AssetFile :=
  fun _ => .error .notExist

/-- A fetcher that fails with a non-not-found I/O error. -/
def fetcherBroken : String → Except FetchError AssetFile :=
  fun _ => .error (.other "input output error")

/-- A fetcher that returns bytes that do not decode to an ignition config. -/
def fetcherMalformed : String → Except FetchError AssetFile :=
  fun n => if n = bootstrapIgnFilename then
    .ok ⟨bootstrapIgnFilename, .raw "not json"⟩ else .error .notExist

/-- A stored ignition config declaring version "1.0.0", incompatible with the
supported version "2.2.0". -/
def incompatibleConfig : IgnConfig := ⟨"1.0.0", [], [], []⟩

/-- A fetcher returning the marshalling of `incompatibleConfig`. -/
def fetcherIncompatible : String → Except FetchError AssetFile :=
  fun n => if n = bootstrapIgnFilename then
    .ok ⟨bootstrapIgnFilename, .ofConfig incompatibleConfig⟩ else .error .notExist

/-- A stored ignition config at the supported version. -/
def sampleStoredConfig : IgnConfig :=
  ⟨ignMaxVersion, [], [⟨"kubelet.service", "unit-text", some true⟩], []⟩

/-- A fetcher returning the marshalling of `sampleStoredConfig`. -/
def fetcherStored : String → Except FetchError AssetFile :=
  fun n => if n = bootstrapIgnFilename then
    .ok ⟨bootstrapIgnFilename, .ofConfig sampleStoredConfig⟩ else .error .notExist

/-- A bootstrap asset whose fields are already populated. -/
def preloadedBootstrap : Bootstrap :=
  ⟨some sampleStoredConfig, some ⟨bootstrapIgnFilename, .raw "old"⟩⟩

/-! ## Theorems -/

/-- The master-pool scan agrees with `find?` on the same predicate. -/
lemma masterCountList_eq_find (l : List MachinePool) :
    masterCountList l =
      match l.find? (fun m => m.name == "master" && m.replicas.isSome) with
      | none => 1
      | some m => m.replicas.getD 0 := by
  induction l with
  | nil => rfl
  | cons m rest ih =>
    by_cases h : (m.name == "master" && m.replicas.isSome) = true
    · simp only [masterCountList, h, if_pos, List.find?]
    · simp only [masterCountList, List.find?, h, if_neg, Bool.false_eq_true,
        not_false_eq_true, ite_false, ih]

/-- C1 (counterexample): the claim reads the replica count off a pool named
"primary"; the code scans for a pool named "master".  With a single pool
"primary" with 3 replicas the accessor returns the default 1, not 3; with a
single pool "master" with 3 replicas it returns 3, not the default 1 the
claim would require when no "primary" pool exists. -/
theorem masterCount_primary_counterexample :
    cfgPrimary3.masterCount = 1 ∧ cfgPrimary3.masterCount ≠ 3 ∧
      cfgMaster3.masterCount = 3 ∧ cfgMaster3.masterCount ≠ 1 := by
  decide

/-- C1 (amended): `InstallConfig.MasterCount` returns 1 when no pool named
"master" with an explicit replica value exists, and returns the first such
pool's explicit replica value when one does. -/
theorem masterCount_master_pool (c : InstallConfig) :
    ((c.machines.find? fun m => m.name == "master" && m.replicas.isSome) = none →
      c.masterCount = 1) ∧
    ∀ m r,
      (c.machines.find? fun m => m.name == "master" && m.replicas.isSome) = some m →
      m.replicas = some r → c.masterCount = r := by
  constructor
  · intro h
    unfold InstallConfig.masterCount
    rw [masterCountList_eq_find, h]
  · intro m r hfind hrep
    unfold InstallConfig.masterCount
    rw [masterCountList_eq_find, hfind]
    simp [hrep]

/-- C1 witness: the amended statement at the concrete configurations. -/
theorem masterCount_master_pool_witness :
    cfgMaster3.masterCount = 3 ∧ cfgPrimary3.masterCount = 1 :=
  ⟨(masterCount_master_pool cfgMaster3).2 ⟨"master", some 3⟩ 3 (by decide) rfl,
   (masterCount_master_pool cfgPrimary3).1 (by decide)⟩

/-- C10: `Platform.Name` is total, including on a nil receiver: it returns ""
for a nil receiver or when no platform field is set, and otherwise the name of
the first non-nil field in the priority order AWS, Libvirt, OpenStack — also
when more than one field is set. -/
theorem platform_name_total (p : Option Platform) :
    (p = none → Platform.name p = "") ∧
    ∀ pl, p = some pl →
      (pl.aws ≠ none → Platform.name p = PlatformNameAWS) ∧
      (pl.aws = none → pl.libvirt ≠ none →
        Platform.name p = PlatformNameLibvirt) ∧
      (pl.aws = none → pl.libvirt = none → pl.openStack ≠ none →
        Platform.name p = PlatformNameOpenstack) ∧
      (pl.aws = none → pl.libvirt = none → pl.openStack = none →
        Platform.name p = "") := by
  constructor
  · intro h; subst h; rfl
  · intro pl h; subst h
    refine ⟨fun ha => ?_, fun ha hl => ?_, fun ha hl ho => ?_,
      fun ha hl ho => ?_⟩
    · obtain ⟨x, hx⟩ := Option.ne_none_iff_exists'.mp ha
      simp [Platform.name, hx]
    · obtain ⟨x, hx⟩ := Option.ne_none_iff_exists'.mp hl
      simp [Platform.name, ha, hx]
    · obtain ⟨x, hx⟩ := Option.ne_none_iff_exists'.mp ho
      simp [Platform.name, ha, hl, hx]
    · simp [Platform.name, ha, hl, ho]

/-- C10 witness: the nil receiver, and a platform with both AWS and Libvirt
set, where the AWS priority wins. -/
theorem platform_name_total_witness :
    Platform.name none = "" ∧
      Platform.name (some ⟨some ⟨"us-east-1"⟩, some ⟨"qemu"⟩, none⟩) =
        PlatformNameAWS :=
  ⟨(platform_name_total none).1 rfl,
   ((platform_name_total (some ⟨some ⟨"us-east-1"⟩, some ⟨"qemu"⟩, none⟩)).2
       ⟨some ⟨"us-east-1"⟩, some ⟨"qemu"⟩, none⟩ rfl).1 (by decide)⟩

/-- C2 (counterexample): `getTemplateData` reads the process environment
directly (`os.LookupEnv("OPENSHIFT_INSTALL_RELEASE_IMAGE_OVERRIDE")`,
bootstrap.go lines 149–153): with identical dependencies and configuration,
an environment without the override and one with it yield different template
data, and `Generate` yields files with different data. -/
theorem generate_env_dependent_counterexample :
    ((getTemplateData sampleDNSIP envEmpty sampleInstallConfig).toOption.map
        (fun d => d.releaseImage) = some defaultReleaseImage) ∧
    ((getTemplateData sampleDNSIP envOverride sampleInstallConfig).toOption.map
        (fun d => d.releaseImage) = some "example.com/custom-release:latest") ∧
    "example.com/custom-release:latest" ≠ defaultReleaseImage ∧
    ((bootstrapGenerate sampleContent sampleDNSIP envEmpty sampleParents
          ⟨none, none⟩).toOption.map Bootstrap.files ≠
      (bootstrapGenerate sampleContent sampleDNSIP envOverride sampleParents
          ⟨none, none⟩).toOption.map Bootstrap.files) := by
  refine ⟨rfl, rfl, by decide, by decide⟩

/-- C2 (amended): the environment enters `Generate` only through the
release-image override variable: two runs with identical dependencies and
configuration whose environments agree on
OPENSHIFT_INSTALL_RELEASE_IMAGE_OVERRIDE produce identical output. -/
theorem generate_env_only_release_override (content : Content)
    (clusterDNSIP : InstallConfig → Except String String)
    (env1 env2 : String → Option String) (parents : Parents) (a : Bootstrap)
    (h : env1 releaseImageOverrideVar = env2 releaseImageOverrideVar) :
    bootstrapGenerate content clusterDNSIP env1 parents a =
      bootstrapGenerate content clusterDNSIP env2 parents a := by
  unfold bootstrapGenerate getTemplateData
  rw [h]

/-- C2 witness: two distinct environments agreeing on the override variable
give identical generation output. -/
theorem generate_env_only_release_override_witness :
    bootstrapGenerate sampleContent sampleDNSIP envOverride sampleParents
        ⟨none, none⟩ =
      bootstrapGenerate sampleContent sampleDNSIP envOverrideNoisy sampleParents
        ⟨none, none⟩ :=
  generate_env_only_release_override sampleContent sampleDNSIP envOverride
    envOverrideNoisy sampleParents ⟨none, none⟩ (by decide)

/-- C3 (code divergence): `addTemporaryBootkubeFiles` appends the manifest
map entries in Go map iteration order, which the language leaves unspecified
and which varies between runs.  Two runs on the same dependency set and the
same manifest map (one list a permutation of the other) can produce
`bootstrap.ign` files with different data bytes, so the output is not
byte-identical across sessions. -/
theorem generate_map_order_nondeterminism :
    List.Perm contentMapsA.podCheckpointerBootkubeManifests
        contentMapsB.podCheckpointerBootkubeManifests ∧
    ((bootstrapGenerate contentMapsA sampleDNSIP envEmpty sampleParents
          ⟨none, none⟩).toOption.map Bootstrap.files ≠
      (bootstrapGenerate contentMapsB sampleDNSIP envEmpty sampleParents
          ⟨none, none⟩).toOption.map Bootstrap.files) := by
  constructor
  · decide
  · decide

/-- C4: `Bootstrap.Load` returns `found = false` with no error exactly when
the fetcher reports that the artifact does not exist; every other fetcher
error and every deserialization error comes back as a non-nil error with
`found = false`. -/
theorem load_not_found_signal (a : Bootstrap)
    (fetcher : String → Except FetchError AssetFile) :
    (((a.load fetcher).found = false ∧ (a.load fetcher).err = none) ↔
      fetcher bootstrapIgnFilename = .error .notExist) ∧
    (∀ msg, fetcher bootstrapIgnFilename = .error (.other msg) →
      (a.load fetcher).found = false ∧ (a.load fetcher).err ≠ none) ∧
    (∀ file e, fetcher bootstrapIgnFilename = .ok file →
      jsonUnmarshalConfig file.data = .error e →
      (a.load fetcher).found = false ∧ (a.load fetcher).err ≠ none) := by
  cases hf : fetcher bootstrapIgnFilename with
  | error fe =>
    cases fe with
    | notExist => simp [Bootstrap.load, hf]
    | other msg => simp [Bootstrap.load, hf]
  | ok file =>
    cases hu : jsonUnmarshalConfig file.data with
    | error e => simp [Bootstrap.load, hf, hu]
    | ok c =>
      refine ⟨by simp [Bootstrap.load, hf, hu], ?_, ?_⟩
      · intro msg hmsg
        exact absurd hmsg (by simp)
      · intro file' e' hfe hue
        injection hfe with h'
        subst h'
        rw [hu] at hue
        exact absurd hue (by simp)

/-- C4 witness: the not-found signal and a broken fetcher at concrete
inputs. -/
theorem load_not_found_signal_witness :
    ((Bootstrap.load ⟨none, none⟩ fetcherNotExist).found = false ∧
      (Bootstrap.load ⟨none, none⟩ fetcherNotExist).err = none) ∧
    ((Bootstrap.load ⟨none, none⟩ fetcherBroken).found = false ∧
      (Bootstrap.load ⟨none, none⟩ fetcherBroken).err ≠ none) :=
  ⟨(load_not_found_signal ⟨none, none⟩ fetcherNotExist).1.mpr rfl,
   (load_not_found_signal ⟨none, none⟩ fetcherBroken).2.1
     "input output error" rfl⟩

/-- C5 (counterexample): `Load` unmarshals with no version-compatibility
check.  A stored artifact declaring config version "1.0.0" — incompatible
with the supported "2.2.0" — is returned as `found = true` with the
misdeclared config, not rejected. -/
theorem load_no_version_check_counterexample :
    (Bootstrap.load ⟨none, none⟩ fetcherIncompatible).found = true ∧
    (Bootstrap.load ⟨none, none⟩ fetcherIncompatible).err = none ∧
    (Bootstrap.load ⟨none, none⟩ fetcherIncompatible).state.config =
      some incompatibleConfig ∧
    incompatibleConfig.version ≠ ignMaxVersion := by
  decide

/-- C5 (amended): `Load` deserializes by plain JSON unmarshalling of the
versioned config structure: content that fails to unmarshal yields a non-nil
error with `found = false`, but any content that unmarshals — whatever
version it declares — yields `found = true` with the stored config, with no
version-compatibility check. -/
theorem load_unmarshal_spec (a : Bootstrap)
    (fetcher : String → Except FetchError AssetFile) :
    (∀ file c, fetcher bootstrapIgnFilename = .ok file →
      jsonUnmarshalConfig file.data = .ok c →
      (a.load fetcher).found = true ∧
        (a.load fetcher).state.config = some c) ∧
    (∀ file e, fetcher bootstrapIgnFilename = .ok file →
      jsonUnmarshalConfig file.data = .error e →
      (a.load fetcher).found = false ∧ (a.load fetcher).err ≠ none) := by
  constructor
  · intro file c hfe hue
    simp [Bootstrap.load, hfe, hue]
  · intro file e hfe hue
    simp [Bootstrap.load, hfe, hue]

/-- C5 witness: the amended statement at the incompatible-version store and
at the malformed store. -/
theorem load_unmarshal_spec_witness :
    ((Bootstrap.load ⟨none, none⟩ fetcherIncompatible).found = true ∧
      (Bootstrap.load ⟨none, none⟩ fetcherIncompatible).state.config =
        some incompatibleConfig) ∧
    ((Bootstrap.load ⟨none, none⟩ fetcherMalformed).found = false ∧
      (Bootstrap.load ⟨none, none⟩ fetcherMalformed).err ≠ none) :=
  ⟨(load_unmarshal_spec ⟨none, none⟩ fetcherIncompatible).1
      ⟨bootstrapIgnFilename, .ofConfig incompatibleConfig⟩ incompatibleConfig
      rfl rfl,
   (load_unmarshal_spec ⟨none, none⟩ fetcherMalformed).2
      ⟨bootstrapIgnFilename, .raw "not json"⟩ "invalid character" rfl rfl⟩

/-- C6: when `Load` reports `found = true`, the asset state is reconstructed
purely from the fetched data: `a.File` is the fetched file and `a.Config` is
the JSON-unmarshalling of its data. -/
theorem load_found_reconstructs_state (a : Bootstrap)
    (fetcher : String → Except FetchError AssetFile)
    (h : (a.load fetcher).found = true) :
    ∃ file c, fetcher bootstrapIgnFilename = .ok file ∧
      jsonUnmarshalConfig file.data = .ok c ∧
      (a.load fetcher).state.file = some file ∧
      (a.load fetcher).state.config = some c := by
  cases hf : fetcher bootstrapIgnFilename with
  | error fe =>
    cases fe with
    | notExist => rw [show (a.load fetcher) = ⟨a, false, none⟩ from by
        simp [Bootstrap.load, hf]] at h; exact absurd h (by simp)
    | other msg => rw [show (a.load fetcher) = ⟨a, false, some msg⟩ from by
        simp [Bootstrap.load, hf]] at h; exact absurd h (by simp)
  | ok file =>
    cases hu : jsonUnmarshalConfig file.data with
    | error e => rw [show (a.load fetcher) =
          ⟨a, false, some ("failed to unmarshal: " ++ e)⟩ from by
        simp [Bootstrap.load, hf, hu]] at h; exact absurd h (by simp)
    | ok c =>
      exact ⟨file, c, rfl, hu, by simp [Bootstrap.load, hf, hu],
        by simp [Bootstrap.load, hf, hu]⟩

/-- C6 witness: loading from a store holding a marshalled config. -/
theorem load_found_reconstructs_state_witness :
    ∃ file c, fetcherStored bootstrapIgnFilename = .ok file ∧
      jsonUnmarshalConfig file.data = .ok c ∧
      (Bootstrap.load ⟨none, none⟩ fetcherStored).state.file = some file ∧
      (Bootstrap.load ⟨none, none⟩ fetcherStored).state.config = some c :=
  load_found_reconstructs_state ⟨none, none⟩ fetcherStored (by decide)

/-- C7: on the fresh asset (before any successful `Generate` or `Load`)
`Files()` is empty; after a successful `Generate` it is exactly one file,
named bootstrap.ign, whose data is the JSON serialization of the generated
config. -/
theorem files_generate_spec :
    Bootstrap.files ⟨none, none⟩ = [] ∧
    ∀ content clusterDNSIP env parents a a',
      bootstrapGenerate content clusterDNSIP env parents a = .ok a' →
      ∃ c, a'.config = some c ∧
        Bootstrap.files a' = [⟨bootstrapIgnFilename, jsonMarshal c⟩] := by
  constructor
  · rfl
  · intro content dns env parents a a' h
    unfold bootstrapGenerate at h
    dsimp only at h
    split at h
    · exact absurd h (by simp)
    · simp only [Except.ok.injEq] at h
      subst h
      exact ⟨_, rfl, rfl⟩

/-- C7 witness: the fresh asset, and a concrete successful generation. -/
theorem files_generate_spec_witness :
    Bootstrap.files ⟨none, none⟩ = [] ∧
    ∃ c, sampleGenerated.config = some c ∧
      Bootstrap.files sampleGenerated = [⟨bootstrapIgnFilename, jsonMarshal c⟩] :=
  ⟨files_generate_spec.1,
   files_generate_spec.2 sampleContent sampleDNSIP envEmpty sampleParents
     ⟨none, none⟩ sampleGenerated rfl⟩

/-- C8: every descriptor `Generate` requests from the `Parents` view is
among the declared `Dependencies()`, and `Generate`'s result depends on the
view only through the declared descriptors: two views agreeing on all
declared dependencies generate identical results. -/
theorem generate_reads_only_declared :
    (∀ d ∈ bootstrapGenerateGets, d ∈ bootstrapDependencies) ∧
    ∀ content clusterDNSIP env (p p' : Parents) a,
      (∀ d ∈ bootstrapDependencies, p d = p' d) →
      bootstrapGenerate content clusterDNSIP env p a =
        bootstrapGenerate content clusterDNSIP env p' a := by
  constructor
  · decide
  · intro content dns env p p' a h
    have h1 := h .installConfig (by decide)
    have h2 := h .kubeconfigKubelet (by decide)
    have h3 := h .kubeconfigAdmin (by decide)
    have h4 := h .manifests (by decide)
    have h5 := h .tectonic (by decide)
    have h6 := h .rootCA (by decide)
    have h7 := h .kubeCA (by decide)
    have h8 := h .aggregatorCA (by decide)
    have h9 := h .serviceServingCA (by decide)
    have h10 := h .etcdCA (by decide)
    have h11 := h .clusterAPIServerCertKey (by decide)
    have h12 := h .etcdClientCertKey (by decide)
    have h13 := h .apiServerCertKey (by decide)
    have h14 := h .openshiftAPIServerCertKey (by decide)
    have h15 := h .apiServerProxyCertKey (by decide)
    have h16 := h .adminCertKey (by decide)
    have h17 := h .kubeletCertKey (by decide)
    have h18 := h .mcsCertKey (by decide)
    have h19 := h .serviceAccountKeyPair (by decide)
    simp only [bootstrapGenerate, addBootstrapFiles, addBootkubeFiles,
      addTectonicFiles, addTLSCertFiles, tlsCertAssets, List.foldl,
      h1, h2, h3, h4, h5, h6, h7, h8, h9, h10, h11, h12, h13, h14, h15,
      h16, h17, h18, h19]

/-- C8 witness: a declared request, and the frame property at a concrete
view compared with itself. -/
theorem generate_reads_only_declared_witness :
    Descriptor.installConfig ∈ bootstrapDependencies ∧
    bootstrapGenerate sampleContent sampleDNSIP envEmpty sampleParents
        ⟨none, none⟩ =
      bootstrapGenerate sampleContent sampleDNSIP envEmpty sampleParents
        ⟨none, none⟩ :=
  ⟨generate_reads_only_declared.1 .installConfig (by decide),
   generate_reads_only_declared.2 sampleContent sampleDNSIP envEmpty
     sampleParents sampleParents ⟨none, none⟩ (fun _ _ => rfl)⟩

/-- C9: `Load` is atomic on failure — whenever it reports `found = false`
(not-found or any error), the asset's `Config` and `File` fields are
unchanged. -/
theorem load_failure_preserves_state (a : Bootstrap)
    (fetcher : String → Except FetchError AssetFile)
    (h : (a.load fetcher).found = false) :
    (a.load fetcher).state = a := by
  cases hf : fetcher bootstrapIgnFilename with
  | error fe =>
    cases fe with
    | notExist => simp [Bootstrap.load, hf]
    | other msg => simp [Bootstrap.load, hf]
  | ok file =>
    cases hu : jsonUnmarshalConfig file.data with
    | error e => simp [Bootstrap.load, hf, hu]
    | ok c =>
      rw [show (a.load fetcher) =
          ⟨{ a with file := some file, config := some c }, true, none⟩ from by
        simp [Bootstrap.load, hf, hu]] at h
      exact absurd h (by simp)

/-- C9 witness: a populated asset is untouched by a not-found load and by a
failing load. -/
theorem load_failure_preserves_state_witness :
    (Bootstrap.load preloadedBootstrap fetcherNotExist).state =
        preloadedBootstrap ∧
    (Bootstrap.load preloadedBootstrap fetcherMalformed).state =
        preloadedBootstrap :=
  ⟨load_failure_preserves_state preloadedBootstrap fetcherNotExist (by decide),
   load_failure_preserves_state preloadedBootstrap fetcherMalformed (by decide)⟩
